import Mathlib

/-!
Verification development for the food-tracker bot.

The embedding models the two components the claims concern:
the inference client and conversation-handler error surfacing
(ai_services.py, bot.py), and the persistence store (database.py).

Python values exchanged with the remote API are modelled by `JsonVal`;
`jsonLoads` is an executable model of `json.loads` on strings, producing
Python-style decode-error messages ("Expecting value: line L column C
(char P)").  Python exceptions are modelled by `PyErr`; functions whose
source can raise an uncaught exception return `Except PyErr _`.  Network
round-trips are modelled by a `CallResult` supplied by the environment:
either an `HttpResponse` (status code plus raw body text) or a raised
transport exception.  Repr details that no claim depends on (Python str
of containers, exact text of delimiter messages) are approximated.
-/

/-- A JSON value as produced by `json.loads` / consumed by the handlers. -/
inductive JsonVal where
  | jnull
  | jbool (b : Bool)
  | jnum (q : Rat)
  | jstr (s : String)
  | jarr (elems : List JsonVal)
  | jobj (fields : List (String × JsonVal))

/-- Python dict lookup on an association list; a later duplicate key wins,
as in a dict built by `json.loads`. -/
def dictGet (kvs : List (String × JsonVal)) (k : String) : Option JsonVal :=
  kvs.foldl (fun acc kv => if kv.1 == k then some kv.2 else acc) none

/-- Python truthiness (`if x:`) of an optional value, `None` being falsy. -/
def truthy : Option JsonVal → Bool
  | none => false
  | some .jnull => false
  | some (.jbool b) => b
  | some (.jnum q) => decide (q ≠ 0)
  | some (.jstr s) => !s.isEmpty
  | some (.jarr l) => !l.isEmpty
  | some (.jobj l) => !l.isEmpty

/-- Model of Python `str()` as used by f-string interpolation.  Strings
interpolate as themselves; container reprs are abbreviated (no claim
depends on them). -/
def pyStr : JsonVal → String
  | .jnull => "None"
  | .jbool true => "True"
  | .jbool false => "False"
  | .jnum q => if q.den = 1 then toString q.num else toString q
  | .jstr s => s
  | .jarr _ => "[...]"
  | .jobj _ => "\x7b...\x7d"

/-- Python exceptions that the sources can raise or catch. -/
inductive PyErr where
  | keyError (k : String)
  | indexError (msg : String)
  | typeError (msg : String)
  | attributeError (msg : String)
  | jsonDecodeError (msg : String)
  | httpStatusError (status : Nat)
  | nameError (msg : String)
  | transportError (msg : String)
deriving DecidableEq, Repr

/-- Model of Python `str(e)` on a caught exception, as interpolated into
the error strings of ai_services.py. -/
def PyErr.str : PyErr → String
  | .keyError k => "\x27" ++ k ++ "\x27"
  | .indexError m => m
  | .typeError m => m
  | .attributeError m => m
  | .jsonDecodeError m => m
  | .httpStatusError sc =>
      (if sc < 500 then "Client error " else "Server error ")
        ++ toString sc ++ " for url https://api.anthropic.com/v1/messages"
  | .nameError m => m
  | .transportError m => m

/-! ## Model of `json.loads`

A fuel-indexed structural parser over the character list, producing
Python-style `JSONDecodeError` messages.  The fuel is always sufficient
for the supplied document, so the fuel-exhausted branch is unreachable. -/

/-- Column number of an error position, one-based from the last newline,
as in `json.JSONDecodeError`. -/
def colOf (pre : List Char) : Nat :=
  match pre.reverse.findIdx? (fun c => c == '\n') with
  | none => pre.length + 1
  | some i => i + 1

/-- Format a decode failure the way `str(json.JSONDecodeError)` does. -/
def fmtErr (doc : List Char) (msg : String) (pos : Nat) : String :=
  let pre := doc.take pos
  msg ++ ": line " ++ toString (1 + pre.count '\n') ++ " column "
      ++ toString (colOf pre) ++ " (char " ++ toString pos ++ ")"

/-- Skip JSON whitespace, tracking the character position. -/
def skipWs : List Char → Nat → List Char × Nat
  | c :: cs, p =>
      if c == ' ' || c == '\t' || c == '\n' || c == '\r' then skipWs cs (p + 1)
      else (c :: cs, p)
  | [], p => ([], p)

/-- Parse the body of a JSON string after the opening quote.  Escape
handling is minimal: a backslash takes the next character literally,
which is exact for the escapes `\"` and `\\`. -/
def parseStrBody : List Char → Nat → String → Except (String × Nat) (String × List Char × Nat)
  | [], p, _ => .error ("Unterminated string starting at", p)
  | '"' :: cs, p, acc => .ok (acc, cs, p + 1)
  | '\\' :: c :: cs, p, acc => parseStrBody cs (p + 2) (acc.push c)
  | '\\' :: [], p, _ => .error ("Unterminated string starting at", p)
  | c :: cs, p, acc => parseStrBody cs (p + 1) (acc.push c)

def digitsToNat (ds : List Char) : Nat :=
  ds.foldl (fun a c => a * 10 + (c.toNat - 48)) 0

/-- Parse a JSON number (integer or decimal; exponents are out of the
modelled grammar). -/
def parseNum (cs : List Char) (p : Nat) : Except (String × Nat) (JsonVal × List Char × Nat) :=
  let res : Bool × List Char × Nat :=
    match cs with
    | '-' :: rest => (true, rest, p + 1)
    | _ => (false, cs, p)
  let neg := res.1
  let cs1 := res.2.1
  let p1 := res.2.2
  let intDs := cs1.takeWhile (fun c => c.isDigit)
  let rest1 := cs1.dropWhile (fun c => c.isDigit)
  if intDs.isEmpty then .error ("Expecting value", p)
  else
    let p2 := p1 + intDs.length
    match rest1 with
    | '.' :: rest2 =>
      let fracDs := rest2.takeWhile (fun c => c.isDigit)
      let rest3 := rest2.dropWhile (fun c => c.isDigit)
      if fracDs.isEmpty then .error ("Expecting value", p)
      else
        let q : Rat := (digitsToNat intDs : Rat)
          + (digitsToNat fracDs : Rat) / ((10 : Rat) ^ fracDs.length)
        .ok (.jnum (if neg then -q else q), rest3, p2 + 1 + fracDs.length)
    | _ =>
      let q : Rat := (digitsToNat intDs : Rat)
      .ok (.jnum (if neg then -q else q), rest1, p2)

/-- Parsing mode: a single value, the remaining elements of an array, or
the remaining items of an object. -/
inductive PMode where
  | val
  | arrElems (acc : List JsonVal)
  | objItems (acc : List (String × JsonVal))

/-- Core recursive JSON parser, structural on the fuel so that concrete
documents evaluate by kernel reduction. -/
def parseCore : Nat → PMode → List Char → Nat → Except (String × Nat) (JsonVal × List Char × Nat)
  | 0, _, _, p => .error ("Expecting value", p)
  | fuel + 1, .val, cs0, p0 =>
    let sw := skipWs cs0 p0
    let cs := sw.1
    let p := sw.2
    match cs with
    | '"' :: rest =>
        (parseStrBody rest (p + 1) "").map (fun r => (.jstr r.1, r.2.1, r.2.2))
    | 'n' :: 'u' :: 'l' :: 'l' :: rest => .ok (.jnull, rest, p + 4)
    | 't' :: 'r' :: 'u' :: 'e' :: rest => .ok (.jbool true, rest, p + 4)
    | 'f' :: 'a' :: 'l' :: 's' :: 'e' :: rest => .ok (.jbool false, rest, p + 5)
    | '[' :: rest =>
        let sw2 := skipWs rest (p + 1)
        (match sw2.1 with
         | ']' :: rest2 => .ok (.jarr [], rest2, sw2.2 + 1)
         | _ => parseCore fuel (.arrElems []) sw2.1 sw2.2)
    | '\x7b' :: rest =>
        let sw2 := skipWs rest (p + 1)
        (match sw2.1 with
         | '\x7d' :: rest2 => .ok (.jobj [], rest2, sw2.2 + 1)
         | _ => parseCore fuel (.objItems []) sw2.1 sw2.2)
    | c :: _ =>
        if c == '-' || c.isDigit then parseNum cs p
        else .error ("Expecting value", p)
    | [] => .error ("Expecting value", p)
  | fuel + 1, .arrElems acc, cs0, p0 => do
    let r ← parseCore fuel .val cs0 p0
    let sw := skipWs r.2.1 r.2.2
    match sw.1 with
    | ',' :: rest => parseCore fuel (.arrElems (acc ++ [r.1])) rest (sw.2 + 1)
    | ']' :: rest => .ok (.jarr (acc ++ [r.1]), rest, sw.2 + 1)
    | _ => .error ("Expecting \x27,\x27 delimiter", sw.2)
  | fuel + 1, .objItems acc, cs0, p0 =>
    let sw := skipWs cs0 p0
    match sw.1 with
    | '"' :: rest => do
      let kr ← parseStrBody rest (sw.2 + 1) ""
      let sw2 := skipWs kr.2.1 kr.2.2
      match sw2.1 with
      | ':' :: rest2 => do
        let vr ← parseCore fuel .val rest2 (sw2.2 + 1)
        let sw3 := skipWs vr.2.1 vr.2.2
        (match sw3.1 with
         | ',' :: rest3 => parseCore fuel (.objItems (acc ++ [(kr.1, vr.1)])) rest3 (sw3.2 + 1)
         | '\x7d' :: rest3 => .ok (.jobj (acc ++ [(kr.1, vr.1)]), rest3, sw3.2 + 1)
         | _ => .error ("Expecting \x27,\x27 delimiter", sw3.2))
      | _ => .error ("Expecting \x27:\x27 delimiter", sw2.2)
    | _ => .error ("Expecting property name enclosed in double quotes", sw.2)

/-- Model of `json.loads` on a string: parse one value, then require
only whitespace to remain ("Extra data" otherwise). -/
def jsonLoads (s : String) : Except String JsonVal :=
  let doc := s.toList
  match parseCore (2 * doc.length + 4) .val doc 0 with
  | .error ep => .error (fmtErr doc ep.1 ep.2)
  | .ok r =>
    let sw := skipWs r.2.1 r.2.2
    if sw.1.isEmpty then .ok r.1 else .error (fmtErr doc "Extra data" sw.2)

/-- `json.loads` raising `json.JSONDecodeError` on failure. -/
def jsonLoadsE (s : String) : Except PyErr JsonVal :=
  (jsonLoads s).mapError .jsonDecodeError

example : jsonLoads "hello" = .error "Expecting value: line 1 column 1 (char 0)" := rfl
example : jsonLoads "\x7b\"a\": 1\x7d" = .ok (.jobj [("a", .jnum 1)]) := rfl
example : jsonLoads " [1, 2, \"x\"] " = .ok (.jarr [.jnum 1, .jnum 2, .jstr "x"]) := rfl
example : jsonLoads "null" = .ok .jnull := rfl

/-! ## Model of the HTTP transport (httpx) -/

/-- A completed HTTP response: status code and raw body text.
`response.json()` is modelled by `jsonLoadsE` on the body text. -/
structure HttpResponse where
  status_code : Nat
  text : String
deriving DecidableEq, Repr

/-- Outcome of one outbound `client.post`: a response, or a raised
transport exception (timeout, connection failure). -/
inductive CallResult where
  | resp (r : HttpResponse)
  | raise (e : PyErr)

/-- `response.raise_for_status()`: raises `httpx.HTTPStatusError` on a
non-success status. -/
def raiseForStatus (r : HttpResponse) : Except PyErr Unit :=
  if 200 ≤ r.status_code ∧ r.status_code < 300 then .ok ()
  else .error (.httpStatusError r.status_code)

/-- Python subscription `v[k]` with a string key. -/
def pyIndexStr (v : JsonVal) (k : String) : Except PyErr JsonVal :=
  match v with
  | .jobj kvs =>
    match dictGet kvs k with
    | some x => .ok x
    | none => .error (.keyError k)
  | .jarr _ => .error (.typeError "list indices must be integers or slices, not str")
  | .jstr _ => .error (.typeError "string indices must be integers")
  | _ => .error (.typeError "object is not subscriptable")

/-- Python subscription `v[0]`. -/
def pyIndex0 (v : JsonVal) : Except PyErr JsonVal :=
  match v with
  | .jarr (x :: _) => .ok x
  | .jarr [] => .error (.indexError "list index out of range")
  | .jobj _ => .error (.keyError "0")
  | .jstr s =>
    match s.toList with
    | c :: _ => .ok (.jstr (String.singleton c))
    | [] => .error (.indexError "string index out of range")
  | _ => .error (.typeError "object is not subscriptable")

/-- `response.json()['content'][0]['text']`: decode the body, then walk
the reply envelope exactly as the source subscripts it. -/
def content0Text (r : HttpResponse) : Except PyErr JsonVal := do
  let v ← jsonLoadsE r.text
  let c ← pyIndexStr v "content"
  let c0 ← pyIndex0 c
  pyIndexStr c0 "text"

/-- `json.loads` applied to an arbitrary Python value: only a string is
an acceptable document. -/
def jsonLoadsVal (t : JsonVal) : Except PyErr JsonVal :=
  match t with
  | .jstr s => jsonLoadsE s
  | _ => .error (.typeError "the JSON object must be str, bytes or bytearray")

/-- The dict `{"error": msg}` returned on every failure path of
ai_services.py. -/
def errDict (msg : String) : JsonVal :=
  .jobj [("error", .jstr msg)]

/-! ## AIService.analyze_food_with_claude (ai_services.py lines 20-57) -/

/-- The body of the try block of `analyze_food_with_claude`: POST, then
`raise_for_status()`, then `json.loads` of the text field of the reply envelope.
Every raised exception is caught by the enclosing except clause. -/
def analyzeBody (call : CallResult) : Except PyErr JsonVal := do
  match call with
  | .raise e => throw e
  | .resp response => do
    let _ ← raiseForStatus response
    let t ← content0Text response
    jsonLoadsVal t

/-- `analyze_food_with_claude(food_description)`: returns the parsed
reply object, or `{"error": f"Claude analysis failed: {str(e)}"}` when
any step raised.  The description only shapes the outbound prompt, whose
effect is already captured by the supplied `CallResult`. -/
def analyze_food_with_claude (food_description : String) (call : CallResult) : JsonVal :=
  match analyzeBody call with
  | .ok v => v
  | .error e => errDict ("Claude analysis failed: " ++ e.str)

/-! ## AIService.analyze_food_image (ai_services.py lines 59-175) -/

/-- `error_data.get('error', {}).get('message', response.text)` on the
decoded body of a non-200 response (lines 110-111). -/
def extractErrMsg (error_data : JsonVal) (respText : String) : Except PyErr String :=
  match error_data with
  | .jobj kvs =>
    match (dictGet kvs "error").getD (.jobj []) with
    | .jobj ekvs =>
      match dictGet ekvs "message" with
      | some v => .ok (pyStr v)
      | none => .ok respText
    | _ => .error (.attributeError "object has no attribute get")
  | _ => .error (.attributeError "object has no attribute get")

/-- Lines 110-111 composed: `error_data = response.json()` followed by
the message extraction; a raise from either step escapes to the outer
except clause. -/
def errBodyMsg (r : HttpResponse) : Except PyErr String := do
  let error_data ← jsonLoadsE r.text
  extractErrMsg error_data r.text

/-- Line 111: the error string built from the direct image-call failure. -/
def apiFailMsg (r : HttpResponse) (m : String) : String :=
  "API request failed with status " ++ toString r.status_code ++ ": " ++ m

/-- The outer except clause of `analyze_food_image` (lines 172-175). -/
def imageFail (e : PyErr) : JsonVal :=
  errDict ("Image analysis failed: " ++ e.str)

/-- The network environment of one `analyze_food_image` execution: the
direct multimodal call, the fallback description call, and the call made
by `analyze_food_with_claude` if the fallback reaches it. -/
structure ImageEnv where
  direct : CallResult
  descCall : CallResult
  textCall : CallResult

/-- Result of `analyze_food_image` together with an execution trace:
whether the fallback description request was issued, and the description
value handed to `analyze_food_with_claude` when the fallback ran it. -/
structure ImageRun where
  result : JsonVal
  descAttempted : Bool
  textDescription : Option JsonVal

/-- `analyze_food_image`, instrumented with the fallback trace.
Control flow mirrors ai_services.py lines 102-175: a non-200 status
builds `error_msg` (raises escaping to the outer except), then tries the
description call, forwarding its reply into `analyze_food_with_claude`
on a 200 and otherwise returning `{"error": error_msg}`; a 200 direct
status parses `content[0].text`, where only `json.JSONDecodeError` is
caught locally (line 167) and every other raise hits the outer except. -/
def analyze_food_image_run (env : ImageEnv) : ImageRun :=
  match env.direct with
  | .raise e => ⟨imageFail e, false, none⟩
  | .resp response =>
    if response.status_code ≠ 200 then
      match errBodyMsg response with
      | .error e => ⟨imageFail e, false, none⟩
      | .ok m =>
        let error_msg := apiFailMsg response m
        match env.descCall with
        | .raise _ => ⟨errDict error_msg, true, none⟩
        | .resp desc_response =>
          if desc_response.status_code = 200 then
            match content0Text desc_response with
            | .error _ => ⟨errDict error_msg, true, none⟩
            | .ok description =>
              ⟨analyze_food_with_claude (pyStr description) env.textCall, true, some description⟩
          else ⟨errDict error_msg, true, none⟩
    else
      match content0Text response with
      | .error e => ⟨imageFail e, false, none⟩
      | .ok t =>
        match t with
        | .jstr s =>
          match jsonLoads s with
          | .ok parsed => ⟨parsed, false, none⟩
          | .error m =>
            ⟨errDict ("Failed to parse JSON response: " ++ m ++ "\nResponse content: " ++ s),
             false, none⟩
        | _ => ⟨imageFail (.typeError "the JSON object must be str, bytes or bytearray"), false, none⟩

/-- `analyze_food_image` as the caller sees it. -/
def analyze_food_image (env : ImageEnv) : JsonVal :=
  (analyze_food_image_run env).result

/-! ## The combined adapters (ai_services.py lines 177-206) -/

/-- Python membership `"error" in result` for the dynamically typed
reply: key test on a dict, element test on a list, substring test on a
string; anything else raises. -/
def strInfixChars (needle : List Char) : List Char → Bool
  | [] => needle.isEmpty
  | c :: cs => (needle.isPrefixOf (c :: cs)) || strInfixChars needle cs

def strContains (hay needle : String) : Bool :=
  strInfixChars needle.toList hay.toList

def pyInList (s : String) : List JsonVal → Bool
  | [] => false
  | .jstr t :: rest => s == t || pyInList s rest
  | _ :: rest => pyInList s rest

/-- `result[k]` restricted to a known dict, as in the success projection. -/
def keyErrGet (kvs : List (String × JsonVal)) (k : String) : Except PyErr JsonVal :=
  match dictGet kvs k with
  | some v => .ok v
  | none => .error (.keyError k)

/-- Lines 181-190 of `get_combined_analysis`: forward a result carrying
"error" untouched, otherwise project the four numeric fields by direct
indexing and `analysis` by `.get` with the literal placeholder. -/
def combinedProject (result : JsonVal) : Except PyErr JsonVal :=
  match result with
  | .jobj kvs =>
    if (dictGet kvs "error").isSome then .ok result
    else do
      let c ← keyErrGet kvs "calories"
      let p ← keyErrGet kvs "protein"
      let cb ← keyErrGet kvs "carbs"
      let f ← keyErrGet kvs "fats"
      .ok (.jobj [("calories", c), ("protein", p), ("carbs", cb), ("fats", f),
        ("analysis", (dictGet kvs "analysis").getD (.jstr "No detailed analysis available"))])
  | .jarr l =>
    if pyInList "error" l then .ok result
    else .error (.typeError "list indices must be integers or slices, not str")
  | .jstr s =>
    if strContains s "error" then .ok result
    else .error (.typeError "string indices must be integers")
  | _ => .error (.typeError "argument is not iterable")

/-- `get_combined_analysis` (lines 177-190); an uncaught raise from the
projection propagates to the conversation handler. -/
def get_combined_analysis (food_description : String) (call : CallResult) : Except PyErr JsonVal :=
  combinedProject (analyze_food_with_claude food_description call)

/-- Lines 196-206 of `get_image_analysis`: like `combinedProject`, with
the additional `description` field defaulted by `.get`. -/
def imageProject (result : JsonVal) : Except PyErr JsonVal :=
  match result with
  | .jobj kvs =>
    if (dictGet kvs "error").isSome then .ok result
    else do
      let c ← keyErrGet kvs "calories"
      let p ← keyErrGet kvs "protein"
      let cb ← keyErrGet kvs "carbs"
      let f ← keyErrGet kvs "fats"
      .ok (.jobj [("description", (dictGet kvs "description").getD (.jstr "No description available")),
        ("calories", c), ("protein", p), ("carbs", cb), ("fats", f),
        ("analysis", (dictGet kvs "analysis").getD (.jstr "No detailed analysis available"))])
  | .jarr l =>
    if pyInList "error" l then .ok result
    else .error (.typeError "list indices must be integers or slices, not str")
  | .jstr s =>
    if strContains s "error" then .ok result
    else .error (.typeError "string indices must be integers")
  | _ => .error (.typeError "argument is not iterable")

/-- `get_image_analysis` (lines 192-206). -/
def get_image_analysis (env : ImageEnv) : Except PyErr JsonVal :=
  imageProject (analyze_food_image env)

/-! ## bot.py handle_text error surfacing (lines 198-204) -/

/-- `result.get(k)` on an arbitrary value; a non-dict raises
`AttributeError`. -/
def pyGet (v : JsonVal) (k : String) : Except PyErr (Option JsonVal) :=
  match v with
  | .jobj kvs => .ok (dictGet kvs k)
  | _ => .error (.attributeError "object has no attribute get")

/-- The reply text built by `handle_text` for an error result:
`error_msg = result["error"]`, `raw_response = result.get("raw_response")`,
then the raw response is appended only when that value is truthy. -/
def handle_text_error_reply (result : JsonVal) : Except PyErr String := do
  let error_msg ← pyIndexStr result "error"
  let raw_response ← pyGet result "raw_response"
  if truthy raw_response then
    .ok ("❌ Sorry, I couldn\x27t analyze your food description. " ++ pyStr error_msg
      ++ "\n\nClaude raw response:\n" ++ pyStr (raw_response.getD .jnull))
  else
    .ok ("❌ Sorry, I couldn\x27t analyze your food description. " ++ pyStr error_msg)

/-! ## Persistence store (database.py)

The SQLite tables are modelled as row lists; `CURRENT_TIMESTAMP` is a
caller-supplied nondecreasing clock value, and the AUTOINCREMENT id is
the `next_id` counter.  Numeric column values are `Rat`. -/

/-- A row of the `users` table. -/
structure UserRow where
  user_id : Int
  username : Option String
  first_name : Option String
  last_name : Option String
  created_at : Nat
deriving DecidableEq, Repr

/-- A row of the `food_history` table. -/
structure FoodRow where
  id : Nat
  user_id : Int
  description : String
  calories : Rat
  protein : Rat
  carbs : Rat
  fats : Rat
  analysis : String
  created_at : Nat
deriving DecidableEq, Repr

/-- The store: both tables plus the AUTOINCREMENT counter. -/
structure DB where
  users : List UserRow
  food_history : List FoodRow
  next_id : Nat
deriving DecidableEq, Repr

/-- The `food_data` dict consumed by `add_food_entry`, with each field
optional as in `food_data.get(key, default)`. -/
structure FoodData where
  description : Option String
  calories : Option Rat
  protein : Option Rat
  carbs : Option Rat
  fats : Option Rat
  analysis : Option String
deriving DecidableEq, Repr

/-- `add_user` (lines 44-53): `INSERT OR REPLACE` keyed on
`user_id` deletes any conflicting row and inserts the new one. -/
def add_user (db : DB) (user_id : Int) (username first_name last_name : Option String)
    (now : Nat) : DB :=
  { db with users := db.users.filter (fun u => !(u.user_id == user_id))
      ++ [⟨user_id, username, first_name, last_name, now⟩] }

/-- `add_food_entry` (lines 55-72): insert one row with `.get` defaults
and the next AUTOINCREMENT id. -/
def add_food_entry (db : DB) (user_id : Int) (food_data : FoodData) (now : Nat) : DB :=
  { db with
    food_history := db.food_history
      ++ [⟨db.next_id, user_id, food_data.description.getD "",
           food_data.calories.getD 0, food_data.protein.getD 0,
           food_data.carbs.getD 0, food_data.fats.getD 0,
           food_data.analysis.getD "", now⟩],
    next_id := db.next_id + 1 }

/-- The ordering of `ORDER BY created_at DESC`. -/
def histRel (a b : FoodRow) : Prop := b.created_at ≤ a.created_at

instance : DecidableRel histRel := fun a b => Nat.decLe b.created_at a.created_at

instance : IsTotal FoodRow histRel :=
  ⟨fun a b => (Nat.le_total b.created_at a.created_at).elim Or.inl Or.inr⟩

instance : IsTrans FoodRow histRel :=
  ⟨fun _ _ _ h1 h2 => Nat.le_trans h2 h1⟩

/-- `get_user_history` (lines 74-87): the rows of the user, ordered by
`created_at DESC`, truncated to `limit`. -/
def get_user_history (db : DB) (user_id : Int) (limit : Nat := 10) : List FoodRow :=
  (List.insertionSort histRel (db.food_history.filter (fun r => r.user_id == user_id))).take limit

/-- The record produced by `get_user_stats`. -/
structure Stats where
  total_entries : Nat
  avg_calories : Int
  avg_protein : Rat
  avg_carbs : Rat
  avg_fats : Rat
  total_calories : Int
  total_protein : Rat
  total_carbs : Rat
  total_fats : Rat
deriving DecidableEq, Repr

/-- Python `round(x)`: nearest integer, ties to even. -/
def pyRound0 (q : Rat) : Int :=
  let f := ⌊q⌋
  let r := q - f
  if r < 1/2 then f else if 1/2 < r then f + 1 else if f % 2 = 0 then f else f + 1

/-- Python `round(x, 1)`: one decimal place, ties to even. -/
def pyRound1 (q : Rat) : Rat :=
  (pyRound0 (q * 10) : Rat) / 10

def sumBy (rows : List FoodRow) (f : FoodRow → Rat) : Rat :=
  rows.foldl (fun a r => a + f r) 0

/-- SQL `AVG` over the selected rows: `NULL` (`none`) when empty. -/
def sqlAvg (rows : List FoodRow) (f : FoodRow → Rat) : Option Rat :=
  if rows.isEmpty then none else some (sumBy rows f / (rows.length : Rat))

/-- SQL `SUM` over the selected rows: `NULL` (`none`) when empty. -/
def sqlSum (rows : List FoodRow) (f : FoodRow → Rat) : Option Rat :=
  if rows.isEmpty then none else some (sumBy rows f)

/-- Lines 108-119: build the stats dict from the aggregate row, each
aggregate passed through `row[i] or 0` and Python `round`. -/
def statsOfRows (rows : List FoodRow) : Stats :=
  { total_entries := rows.length,
    avg_calories := pyRound0 ((sqlAvg rows (fun r => r.calories)).getD 0),
    avg_protein := pyRound1 ((sqlAvg rows (fun r => r.protein)).getD 0),
    avg_carbs := pyRound1 ((sqlAvg rows (fun r => r.carbs)).getD 0),
    avg_fats := pyRound1 ((sqlAvg rows (fun r => r.fats)).getD 0),
    total_calories := pyRound0 ((sqlSum rows (fun r => r.calories)).getD 0),
    total_protein := pyRound1 ((sqlSum rows (fun r => r.protein)).getD 0),
    total_carbs := pyRound1 ((sqlSum rows (fun r => r.carbs)).getD 0),
    total_fats := pyRound1 ((sqlSum rows (fun r => r.fats)).getD 0) }

/-- `get_user_stats` (lines 89-119). -/
def get_user_stats (db : DB) (user_id : Int) : Stats :=
  statsOfRows (db.food_history.filter (fun r => r.user_id == user_id))

/-- `delete_entry` (lines 121-134).  The `fault` argument injects a
raise from the underlying storage operation.  The module never defines
`logger` (database.py imports only sqlite3, datetime and typing, lines
1-3), so the except clause itself raises `NameError` before its
`return False` is reached. -/
def delete_entry (db : DB) (user_id : Int) (entry_id : Nat) (fault : Option PyErr) :
    Except PyErr (Bool × DB) :=
  match fault with
  | some _ => .error (.nameError "name logger is not defined")
  | none =>
    let rowcount := db.food_history.countP (fun r => r.id == entry_id && r.user_id == user_id)
    .ok (decide (0 < rowcount),
      { db with food_history :=
          db.food_history.filter (fun r => !(r.id == entry_id && r.user_id == user_id)) })

/-- `get_entry` (lines 136-150): `fetchone` on the doubly keyed SELECT. -/
def get_entry (db : DB) (user_id : Int) (entry_id : Nat) : Option FoodRow :=
  (db.food_history.filter (fun r => r.id == entry_id && r.user_id == user_id)).head?

/-! ## Theorems: persistence store -/

theorem statsOfRows_nil : statsOfRows [] = ⟨0, 0, 0, 0, 0, 0, 0, 0, 0⟩ := by
  simp [statsOfRows, sqlAvg, sqlSum, sumBy, pyRound0, pyRound1]

/-- C7: a user with zero food entries gets the all-zero stats record,
with every aggregate field present and equal to zero. -/
theorem getStats_zero_entries (db : DB) (user_id : Int)
    (h : db.food_history.filter (fun r => r.user_id == user_id) = []) :
    get_user_stats db user_id = ⟨0, 0, 0, 0, 0, 0, 0, 0, 0⟩ := by
  unfold get_user_stats
  rw [h]
  exact statsOfRows_nil

theorem getStats_zero_entries_witness :
    (DB.mk [] [] 1).food_history.filter (fun r => r.user_id == (5 : Int)) = [] ∧
    get_user_stats (DB.mk [] [] 1) 5 = ⟨0, 0, 0, 0, 0, 0, 0, 0, 0⟩ :=
  ⟨rfl, getStats_zero_entries (DB.mk [] [] 1) 5 rfl⟩

/-- C6: when every row carrying the requested entry id belongs to user A
(id uniqueness is the AUTOINCREMENT invariant) and B is a different
user, `get_entry` answers "not found" and `delete_entry` reports no row
deleted and leaves the store unchanged. -/
theorem cross_user_access_hidden (db : DB) (A B : Int) (eid : Nat) (row : FoodRow)
    (hmem : row ∈ db.food_history) (hid : row.id = eid) (hown : row.user_id = A)
    (hBA : B ≠ A) (huniq : ∀ r ∈ db.food_history, r.id = eid → r = row) :
    get_entry db B eid = none ∧ delete_entry db B eid none = .ok (false, db) := by
  have hpred : ∀ r ∈ db.food_history, (r.id == eid && r.user_id == B) = false := by
    intro r hr
    by_cases h : r.id = eid
    · have hrrow := huniq r hr h
      subst hrrow
      simp only [Bool.and_eq_false_iff]
      right
      simp [hown]
      exact fun hc => hBA hc.symm
    · simp [h]
  refine ⟨?_, ?_⟩
  · unfold get_entry
    have : db.food_history.filter (fun r => r.id == eid && r.user_id == B) = [] := by
      simp only [List.filter_eq_nil_iff]
      intro r hr
      simp [hpred r hr]
    rw [this]
    rfl
  · unfold delete_entry
    have hcount : db.food_history.countP (fun r => r.id == eid && r.user_id == B) = 0 := by
      simp only [List.countP_eq_zero]
      intro r hr
      simp [hpred r hr]
    have hfilter : db.food_history.filter (fun r => !(r.id == eid && r.user_id == B))
        = db.food_history := by
      rw [List.filter_eq_self]
      intro r hr
      simp [hpred r hr]
    rw [hcount, hfilter]
    rfl

theorem cross_user_access_hidden_witness :
    let db : DB := ⟨[], [⟨1, 5, "soup", 0, 0, 0, 0, "", 10⟩], 2⟩
    get_entry db 6 1 = none ∧ delete_entry db 6 1 none = .ok (false, db) :=
  cross_user_access_hidden ⟨[], [⟨1, 5, "soup", 0, 0, 0, 0, "", 10⟩], 2⟩ 5 6 1
    ⟨1, 5, "soup", 0, 0, 0, 0, "", 10⟩ (List.mem_singleton.mpr rfl) rfl rfl
    (by decide)
    (fun r hr _ => List.mem_singleton.mp hr)

/-- C8: calling `add_user` twice with the same id leaves exactly one row
for that id, carrying the display attributes of the second call. -/
theorem upsertUser_idempotent (db : DB) (uid : Int)
    (u1 f1 l1 : Option String) (n1 : Nat) (u2 f2 l2 : Option String) (n2 : Nat) :
    ((add_user (add_user db uid u1 f1 l1 n1) uid u2 f2 l2 n2).users.filter
        (fun u => u.user_id == uid)) = [⟨uid, u2, f2, l2, n2⟩] := by
  unfold add_user
  simp [List.filter_append, List.filter_filter]

/-- C10: the bare `logger` name in the except clause of `delete_entry` is
undefined in database.py, so an injected storage raise surfaces as
`NameError` (never a returned `False`); with no raise, `False` is
returned exactly when the DELETE matched no row. -/
theorem deleteEntry_logger_undefined :
    (∀ (db : DB) (uid : Int) (eid : Nat) (e : PyErr),
      delete_entry db uid eid (some e) = .error (.nameError "name logger is not defined"))
  ∧ (∀ (db : DB) (uid : Int) (eid : Nat) (b : Bool) (db2 : DB),
      delete_entry db uid eid none = .ok (b, db2) →
      (b = false ↔ db.food_history.countP (fun r => r.id == eid && r.user_id == uid) = 0)) := by
  constructor
  · intro db uid eid e
    rfl
  · intro db uid eid b db2 h
    unfold delete_entry at h
    have hb : b = decide (0 < db.food_history.countP (fun r => r.id == eid && r.user_id == uid)) := by
      cases h
      rfl
    subst hb
    simp [Nat.pos_iff_ne_zero]

theorem deleteEntry_logger_undefined_witness :
    delete_entry (DB.mk [] [] 1) 1 1 (some (.typeError "database is locked"))
      = .error (.nameError "name logger is not defined")
  ∧ ((false : Bool) = false ↔
      (DB.mk [] [] 1).food_history.countP (fun r => r.id == 1 && r.user_id == 1) = 0) :=
  ⟨deleteEntry_logger_undefined.1 (DB.mk [] [] 1) 1 1 (.typeError "database is locked"),
   deleteEntry_logger_undefined.2 (DB.mk [] [] 1) 1 1 false (DB.mk [] [] 1) rfl⟩

/-- C9: `get_user_history` returns at most `limit` rows, each owned by
the requesting user, in nonincreasing `created_at` order; and the
concrete three-insert scenario returns the two newest entries, newest
first. -/
theorem getHistory_ordered_bounded :
    (∀ (db : DB) (uid : Int) (limit : Nat),
      (get_user_history db uid limit).length ≤ limit)
  ∧ (∀ (db : DB) (uid : Int) (limit : Nat) (r : FoodRow),
      r ∈ get_user_history db uid limit → r.user_id = uid)
  ∧ (∀ (db : DB) (uid : Int) (limit : Nat),
      List.Pairwise (fun a b => b.created_at ≤ a.created_at) (get_user_history db uid limit))
  ∧ (get_user_history
      (add_food_entry
        (add_food_entry
          (add_food_entry (DB.mk [] [] 1) 7 ⟨some "oats", some 100, none, none, none, none⟩ 10)
          7 ⟨some "rice", some 200, none, none, none, none⟩ 20)
        7 ⟨some "stew", some 300, none, none, none, none⟩ 30) 7 2
      = [⟨3, 7, "stew", 300, 0, 0, 0, "", 30⟩, ⟨2, 7, "rice", 200, 0, 0, 0, "", 20⟩]) := by
  refine ⟨?_, ?_, ?_, ?_⟩
  · intro db uid limit
    unfold get_user_history
    exact List.length_take_le limit _
  · intro db uid limit r hr
    unfold get_user_history at hr
    have h1 := List.take_subset limit _ hr
    have h2 := (List.mem_insertionSort histRel).mp h1
    have h3 := (List.mem_filter.mp h2).2
    exact beq_iff_eq.mp h3
  · intro db uid limit
    unfold get_user_history
    exact (List.sorted_insertionSort histRel _).sublist (List.take_sublist limit _)
  · rfl

theorem getHistory_ordered_bounded_witness :
    (get_user_history (DB.mk [] [⟨1, 7, "oats", 100, 0, 0, 0, "", 10⟩] 2) 7 10).length ≤ 10
  ∧ ((⟨1, 7, "oats", 100, 0, 0, 0, "", 10⟩ : FoodRow)
        ∈ get_user_history (DB.mk [] [⟨1, 7, "oats", 100, 0, 0, 0, "", 10⟩] 2) 7 10 →
      (⟨1, 7, "oats", 100, 0, 0, 0, "", 10⟩ : FoodRow).user_id = 7) :=
  ⟨getHistory_ordered_bounded.1 (DB.mk [] [⟨1, 7, "oats", 100, 0, 0, 0, "", 10⟩] 2) 7 10,
   getHistory_ordered_bounded.2.1 (DB.mk [] [⟨1, 7, "oats", 100, 0, 0, 0, "", 10⟩] 2) 7 10
     ⟨1, 7, "oats", 100, 0, 0, 0, "", 10⟩⟩

/-! ## Theorems: inference client and error surfacing -/

/-- C4 evidence: a successful text-analysis call whose reply body is the
non-JSON text "hello" produces an error dict whose message is only the
position-based decoder diagnostic; no `raw_response` key is set, so the
user-facing reply of handle_text (bot.py lines 198-204) takes the branch
without the raw reply and the raw text "hello" appears nowhere in it. -/
theorem malformed_reply_drops_raw_text :
    analyze_food_with_claude "pizza"
        (.resp ⟨200, "\x7b\"content\": [\x7b\"text\": \"hello\"\x7d]\x7d"⟩)
      = errDict "Claude analysis failed: Expecting value: line 1 column 1 (char 0)"
  ∧ get_combined_analysis "pizza"
        (.resp ⟨200, "\x7b\"content\": [\x7b\"text\": \"hello\"\x7d]\x7d"⟩)
      = .ok (errDict "Claude analysis failed: Expecting value: line 1 column 1 (char 0)")
  ∧ dictGet [("error", .jstr "Claude analysis failed: Expecting value: line 1 column 1 (char 0)")]
        "raw_response" = none
  ∧ handle_text_error_reply
        (errDict "Claude analysis failed: Expecting value: line 1 column 1 (char 0)")
      = .ok ("❌ Sorry, I couldn\x27t analyze your food description. "
          ++ "Claude analysis failed: Expecting value: line 1 column 1 (char 0)")
  ∧ strContains ("❌ Sorry, I couldn\x27t analyze your food description. "
          ++ "Claude analysis failed: Expecting value: line 1 column 1 (char 0)") "hello" = false :=
  ⟨rfl, rfl, rfl, rfl, rfl⟩

/-- C5 counterexample: a successful reply whose `analysis` value is the
empty string is forwarded with the empty string kept, not replaced by
the placeholder, because line 189 substitutes only on an absent key. -/
theorem combined_adapter_keeps_empty_analysis :
    get_combined_analysis "salad"
        (.resp ⟨200, "\x7b\"content\": [\x7b\"text\": \"\x7b\\\"calories\\\": 1, \\\"protein\\\": 2, \\\"carbs\\\": 3, \\\"fats\\\": 4, \\\"analysis\\\": \\\"\\\"\x7d\"\x7d]\x7d"⟩)
      = .ok (.jobj [("calories", .jnum 1), ("protein", .jnum 2), ("carbs", .jnum 3),
          ("fats", .jnum 4), ("analysis", .jstr "")])
  ∧ (JsonVal.jstr "" : JsonVal) ≠ .jstr "No detailed analysis available" :=
  ⟨rfl, by simp⟩

/-- C5 amended: on a successful result carrying the four numeric keys
and no error key, the adapters substitute the placeholder exactly when
the `analysis` (resp. `description`) key is absent; a present value,
even the empty string, is forwarded unchanged. -/
theorem adapters_placeholder_iff_key_absent
    (kvs : List (String × JsonVal)) (c p cb f : JsonVal)
    (herr : dictGet kvs "error" = none)
    (hc : dictGet kvs "calories" = some c)
    (hp : dictGet kvs "protein" = some p)
    (hcb : dictGet kvs "carbs" = some cb)
    (hf : dictGet kvs "fats" = some f) :
    combinedProject (.jobj kvs)
      = .ok (.jobj [("calories", c), ("protein", p), ("carbs", cb), ("fats", f),
          ("analysis", (dictGet kvs "analysis").getD (.jstr "No detailed analysis available"))])
  ∧ imageProject (.jobj kvs)
      = .ok (.jobj [("description",
            (dictGet kvs "description").getD (.jstr "No description available")),
          ("calories", c), ("protein", p), ("carbs", cb), ("fats", f),
          ("analysis", (dictGet kvs "analysis").getD (.jstr "No detailed analysis available"))]) := by
  constructor
  · simp [combinedProject, keyErrGet, herr, hc, hp, hcb, hf, Bind.bind, Except.bind]
  · simp [imageProject, keyErrGet, herr, hc, hp, hcb, hf, Bind.bind, Except.bind]

theorem adapters_placeholder_iff_key_absent_witness :
    dictGet [("calories", JsonVal.jnum 1), ("protein", JsonVal.jnum 2),
      ("carbs", JsonVal.jnum 3), ("fats", JsonVal.jnum 4)] "error" = none
  ∧ combinedProject (.jobj [("calories", JsonVal.jnum 1), ("protein", JsonVal.jnum 2),
      ("carbs", JsonVal.jnum 3), ("fats", JsonVal.jnum 4)])
      = .ok (.jobj [("calories", .jnum 1), ("protein", .jnum 2), ("carbs", .jnum 3),
          ("fats", .jnum 4), ("analysis", .jstr "No detailed analysis available")]) :=
  ⟨rfl,
   (adapters_placeholder_iff_key_absent
      [("calories", JsonVal.jnum 1), ("protein", JsonVal.jnum 2),
       ("carbs", JsonVal.jnum 3), ("fats", JsonVal.jnum 4)]
      (.jnum 1) (.jnum 2) (.jnum 3) (.jnum 4) rfl rfl rfl rfl rfl).1⟩

/-- C3: when the text-analysis reply parses to an object with no error
key but missing one of the required numeric keys, the first missing key
raises `KeyError` in the projection (lines 185-188), so
`get_combined_analysis` surfaces an error outcome and never a success
record with a defaulted field. -/
theorem text_missing_key_never_defaults
    (food_description : String) (call : CallResult) (kvs : List (String × JsonVal))
    (hres : analyze_food_with_claude food_description call = .jobj kvs)
    (herr : dictGet kvs "error" = none)
    (hmiss : dictGet kvs "calories" = none ∨ dictGet kvs "protein" = none
      ∨ dictGet kvs "carbs" = none ∨ dictGet kvs "fats" = none) :
    (∃ k, (k = "calories" ∨ k = "protein" ∨ k = "carbs" ∨ k = "fats")
        ∧ dictGet kvs k = none
        ∧ get_combined_analysis food_description call = .error (.keyError k))
  ∧ ∀ v, get_combined_analysis food_description call ≠ .ok v := by
  have hg : get_combined_analysis food_description call = combinedProject (.jobj kvs) := by
    unfold get_combined_analysis
    rw [hres]
  have hout : ∃ k, (k = "calories" ∨ k = "protein" ∨ k = "carbs" ∨ k = "fats")
      ∧ dictGet kvs k = none
      ∧ combinedProject (.jobj kvs) = .error (.keyError k) := by
    rcases hc : dictGet kvs "calories" with _ | c
    · exact ⟨"calories", Or.inl rfl, hc, by simp [combinedProject, keyErrGet, herr, hc, Bind.bind, Except.bind]⟩
    · rcases hp : dictGet kvs "protein" with _ | p
      · exact ⟨"protein", Or.inr (Or.inl rfl), hp,
          by simp [combinedProject, keyErrGet, herr, hc, hp, Bind.bind, Except.bind]⟩
      · rcases hcb : dictGet kvs "carbs" with _ | cb
        · exact ⟨"carbs", Or.inr (Or.inr (Or.inl rfl)), hcb,
            by simp [combinedProject, keyErrGet, herr, hc, hp, hcb, Bind.bind, Except.bind]⟩
        · rcases hf : dictGet kvs "fats" with _ | f
          · exact ⟨"fats", Or.inr (Or.inr (Or.inr rfl)), hf,
              by simp [combinedProject, keyErrGet, herr, hc, hp, hcb, hf, Bind.bind, Except.bind]⟩
          · rcases hmiss with h | h | h | h <;> simp_all
  obtain ⟨k, hk, hnone, hcp⟩ := hout
  refine ⟨⟨k, hk, hnone, hg.trans hcp⟩, ?_⟩
  intro v hv
  rw [hg, hcp] at hv
  exact Except.noConfusion hv

theorem text_missing_key_never_defaults_witness :
    analyze_food_with_claude "tea"
        (.resp ⟨200, "\x7b\"content\": [\x7b\"text\": \"\x7b\\\"protein\\\": 1\x7d\"\x7d]\x7d"⟩)
      = .jobj [("protein", .jnum 1)]
  ∧ ((∃ k, (k = "calories" ∨ k = "protein" ∨ k = "carbs" ∨ k = "fats")
        ∧ dictGet [("protein", JsonVal.jnum 1)] k = none
        ∧ get_combined_analysis "tea"
            (.resp ⟨200, "\x7b\"content\": [\x7b\"text\": \"\x7b\\\"protein\\\": 1\x7d\"\x7d]\x7d"⟩)
          = .error (.keyError k))
    ∧ ∀ v, get_combined_analysis "tea"
        (.resp ⟨200, "\x7b\"content\": [\x7b\"text\": \"\x7b\\\"protein\\\": 1\x7d\"\x7d]\x7d"⟩)
      ≠ .ok v) :=
  ⟨rfl,
   text_missing_key_never_defaults "tea"
     (.resp ⟨200, "\x7b\"content\": [\x7b\"text\": \"\x7b\\\"protein\\\": 1\x7d\"\x7d]\x7d"⟩)
     [("protein", JsonVal.jnum 1)] rfl rfl (Or.inl rfl)⟩

/-- C1: the describe-then-analyze fallback is attempted exactly on a
non-success status of the direct image call (whose error body decodes
per the documented failure-response interface), never on a parse failure
of a successful call — a successful-but-malformed reply is returned as
the parse-failure error dict with no second attempt — and when the
fallback description call succeeds, its reply text is handed to
`analyze_food_with_claude` and that result is returned. -/
theorem image_fallback_protocol :
    (∀ (r : HttpResponse) (m : String) (dsc tc : CallResult),
      r.status_code ≠ 200 → errBodyMsg r = .ok m →
      (analyze_food_image_run ⟨.resp r, dsc, tc⟩).descAttempted = true)
  ∧ (∀ (r : HttpResponse) (dsc tc : CallResult),
      r.status_code = 200 →
      (analyze_food_image_run ⟨.resp r, dsc, tc⟩).descAttempted = false)
  ∧ (∀ (e : PyErr) (dsc tc : CallResult),
      (analyze_food_image_run ⟨.raise e, dsc, tc⟩).descAttempted = false)
  ∧ (∀ (r : HttpResponse) (s f : String) (dsc tc : CallResult),
      r.status_code = 200 →
      content0Text r = .ok (.jstr s) → jsonLoads s = .error f →
      analyze_food_image ⟨.resp r, dsc, tc⟩
        = errDict ("Failed to parse JSON response: " ++ f ++ "\nResponse content: " ++ s)
      ∧ (analyze_food_image_run ⟨.resp r, dsc, tc⟩).descAttempted = false)
  ∧ (∀ (r : HttpResponse) (m : String) (d : HttpResponse) (ds : JsonVal) (tc : CallResult),
      r.status_code ≠ 200 → errBodyMsg r = .ok m →
      d.status_code = 200 → content0Text d = .ok ds →
      analyze_food_image ⟨.resp r, .resp d, tc⟩ = analyze_food_with_claude (pyStr ds) tc
      ∧ (analyze_food_image_run ⟨.resp r, .resp d, tc⟩).textDescription = some ds) := by
  refine ⟨?_, ?_, ?_, ?_, ?_⟩
  · intro r m dsc tc h2 h3
    unfold analyze_food_image_run
    simp only [h3, if_pos h2]
    cases dsc with
    | raise e => rfl
    | resp d =>
      by_cases hd : d.status_code = 200
      · simp only [if_pos hd]
        rcases hct : content0Text d with e | v <;> rfl
      · simp only [if_neg hd]
  · intro r dsc tc h2
    unfold analyze_food_image_run
    have : ¬ r.status_code ≠ 200 := by simp [h2]
    simp only [if_neg this]
    rcases hct : content0Text r with e | v
    · rfl
    · cases v with
      | jstr s => rcases hl : jsonLoads s with f | parsed <;> simp only [hl]
      | jnull => rfl
      | jbool b => rfl
      | jnum q => rfl
      | jarr l => rfl
      | jobj l => rfl
  · intro e dsc tc
    rfl
  · intro r s f dsc tc h2 hct hl
    have hne : ¬ r.status_code ≠ 200 := by simp [h2]
    constructor
    · unfold analyze_food_image analyze_food_image_run
      simp only [if_neg hne, hct, hl]
    · unfold analyze_food_image_run
      simp only [if_neg hne, hct, hl]
  · intro r m d ds tc h2 h3 hd hct
    constructor
    · unfold analyze_food_image analyze_food_image_run
      simp only [h3, if_pos h2, if_pos hd, hct]
    · unfold analyze_food_image_run
      simp only [h3, if_pos h2, if_pos hd, hct]

theorem image_fallback_protocol_witness :
    errBodyMsg ⟨500, "\x7b\"error\": \x7b\"message\": \"Overloaded\"\x7d\x7d"⟩ = .ok "Overloaded"
  ∧ (analyze_food_image_run ⟨.resp ⟨500, "\x7b\"error\": \x7b\"message\": \"Overloaded\"\x7d\x7d"⟩,
        .raise (.transportError "timeout"), .raise (.transportError "timeout")⟩).descAttempted
      = true
  ∧ (analyze_food_image_run ⟨.resp ⟨200, "junk"⟩,
        .raise (.transportError "timeout"), .raise (.transportError "timeout")⟩).descAttempted
      = false
  ∧ (analyze_food_image_run ⟨.raise (.transportError "timeout"),
        .raise (.transportError "timeout"), .raise (.transportError "timeout")⟩).descAttempted
      = false
  ∧ analyze_food_image ⟨.resp ⟨200, "\x7b\"content\": [\x7b\"text\": \"oops\"\x7d]\x7d"⟩,
        .raise (.transportError "timeout"), .raise (.transportError "timeout")⟩
      = errDict ("Failed to parse JSON response: Expecting value: line 1 column 1 (char 0)"
          ++ "\nResponse content: oops")
  ∧ analyze_food_image ⟨.resp ⟨500, "\x7b\"error\": \x7b\"message\": \"Overloaded\"\x7d\x7d"⟩,
        .resp ⟨200, "\x7b\"content\": [\x7b\"text\": \"a bowl of rice\"\x7d]\x7d"⟩,
        .raise (.transportError "timeout")⟩
      = analyze_food_with_claude "a bowl of rice" (.raise (.transportError "timeout")) :=
  ⟨rfl,
   image_fallback_protocol.1 ⟨500, "\x7b\"error\": \x7b\"message\": \"Overloaded\"\x7d\x7d"⟩
     "Overloaded" (.raise (.transportError "timeout")) (.raise (.transportError "timeout"))
     (by decide) rfl,
   image_fallback_protocol.2.1 ⟨200, "junk"⟩
     (.raise (.transportError "timeout")) (.raise (.transportError "timeout")) rfl,
   image_fallback_protocol.2.2.1 (.transportError "timeout")
     (.raise (.transportError "timeout")) (.raise (.transportError "timeout")),
   (image_fallback_protocol.2.2.2.1 ⟨200, "\x7b\"content\": [\x7b\"text\": \"oops\"\x7d]\x7d"⟩
     "oops" "Expecting value: line 1 column 1 (char 0)"
     (.raise (.transportError "timeout")) (.raise (.transportError "timeout"))
     rfl rfl rfl).1,
   (image_fallback_protocol.2.2.2.2 ⟨500, "\x7b\"error\": \x7b\"message\": \"Overloaded\"\x7d\x7d"⟩
     "Overloaded" ⟨200, "\x7b\"content\": [\x7b\"text\": \"a bowl of rice\"\x7d]\x7d"⟩
     (.jstr "a bowl of rice") (.raise (.transportError "timeout"))
     (by decide) rfl rfl rfl).1⟩

/-- C2: when the direct image call fails with a non-success status and
the description call also fails — by status or by raising — the returned
error is the one built from the original image-analysis failure. -/
theorem image_double_failure_keeps_original_error :
    (∀ (r : HttpResponse) (m : String) (e : PyErr) (tc : CallResult),
      r.status_code ≠ 200 → errBodyMsg r = .ok m →
      analyze_food_image ⟨.resp r, .raise e, tc⟩ = errDict (apiFailMsg r m))
  ∧ (∀ (r : HttpResponse) (m : String) (d : HttpResponse) (tc : CallResult),
      r.status_code ≠ 200 → errBodyMsg r = .ok m → d.status_code ≠ 200 →
      analyze_food_image ⟨.resp r, .resp d, tc⟩ = errDict (apiFailMsg r m)) := by
  constructor
  · intro r m e tc h2 h3
    unfold analyze_food_image analyze_food_image_run
    simp only [h3, if_pos h2]
  · intro r m d tc h2 h3 hd
    unfold analyze_food_image analyze_food_image_run
    simp only [h3, if_pos h2, if_neg hd]

theorem image_double_failure_keeps_original_error_witness :
    analyze_food_image ⟨.resp ⟨500, "\x7b\"error\": \x7b\"message\": \"Overloaded\"\x7d\x7d"⟩,
        .raise (.transportError "timeout"), .raise (.transportError "timeout")⟩
      = errDict "API request failed with status 500: Overloaded"
  ∧ analyze_food_image ⟨.resp ⟨500, "\x7b\"error\": \x7b\"message\": \"Overloaded\"\x7d\x7d"⟩,
        .resp ⟨500, "\x7b\"error\": \x7b\"message\": \"Overloaded\"\x7d\x7d"⟩,
        .raise (.transportError "timeout")⟩
      = errDict "API request failed with status 500: Overloaded" :=
  ⟨image_double_failure_keeps_original_error.1
     ⟨500, "\x7b\"error\": \x7b\"message\": \"Overloaded\"\x7d\x7d"⟩ "Overloaded"
     (.transportError "timeout") (.raise (.transportError "timeout")) (by decide) rfl,
   image_double_failure_keeps_original_error.2
     ⟨500, "\x7b\"error\": \x7b\"message\": \"Overloaded\"\x7d\x7d"⟩ "Overloaded"
     ⟨500, "\x7b\"error\": \x7b\"message\": \"Overloaded\"\x7d\x7d"⟩
     (.raise (.transportError "timeout")) (by decide) rfl (by decide)⟩
